import Mathlib

/-!
Shallow embedding of the MedicoreX Hospital Management System backend
(Flask + SQLAlchemy, `backend/models` and `backend/routes`).

Modelling conventions:
* each database table is a Lean list held in an explicit state record;
* SQLAlchemy decimal columns are exact rationals (`ℚ`), matching the
  source's use of `Decimal` arithmetic;
* timestamps (`datetime.utcnow()`) are abstract clock values (`Nat`),
  supplied to each mutating operation as a `now` parameter;
* dates and times are kept as their canonical parsed strings
  (`YYYY-MM-DD` / `HH:MM`); `datetime.strptime` on a canonical string is
  injective, so string equality models parsed-value equality;
* update payloads (JSON bodies) are records of `Option` fields: `none`
  means the key is absent from the payload.  Keys the model class does not
  have are skipped by the `hasattr` check in the source and are therefore
  not represented;
* every route handler returns either `ok` with the committed new state or
  `err` with the HTTP status code, the error message, and the state, which
  the handler has left unchanged (all guards in the source run before any
  mutation is committed).
-/

inductive AppointmentStatus where
  | pending
  | confirmed
  | completed
  | cancelled
  deriving DecidableEq

inductive BillStatus where
  | pending
  | paid
  | partialPaid
  deriving DecidableEq

inductive PaymentMethod where
  | cash
  | card
  | upi
  | insurance
  deriving DecidableEq

inductive Gender where
  | male
  | female
  | other
  deriving DecidableEq

inductive BloodGroup where
  | aPos
  | aNeg
  | bPos
  | bNeg
  | abPos
  | abNeg
  | oPos
  | oNeg
  deriving DecidableEq

inductive DoctorStatus where
  | active
  | onLeave
  | inactive
  deriving DecidableEq

structure Patient where
  id : String
  name : String
  age : Nat
  gender : Gender
  phone : String
  email : Option String
  blood_group : Option BloodGroup
  address : Option String
  medical_history : Option String
  created_at : Nat
  updated_at : Nat
  deriving DecidableEq

structure Doctor where
  id : String
  name : String
  specialization : String
  phone : String
  email : String
  experience : Nat
  qualification : String
  consultation_fee : ℚ
  status : DoctorStatus
  address : Option String
  created_at : Nat
  updated_at : Nat
  deriving DecidableEq

structure Appointment where
  id : String
  patient_id : String
  doctor_id : String
  date : String
  time : String
  reason : String
  status : AppointmentStatus
  notes : Option String
  created_at : Nat
  updated_at : Nat
  deriving DecidableEq

/-- A bill line item.  The autoincrement surrogate key, the `bill_id`
foreign key and the row timestamp of the `bill_items` table are storage
bookkeeping; containment in the owning bill's `items` list plays the role
of `bill_id`. -/
structure BillItemData where
  description : String
  amount : ℚ
  deriving DecidableEq

structure Bill where
  id : String
  patient_id : String
  appointment_id : Option String
  subtotal : ℚ
  discount : ℚ
  tax : ℚ
  total_amount : ℚ
  status : BillStatus
  payment_method : Option PaymentMethod
  notes : Option String
  date : Nat
  created_at : Nat
  updated_at : Nat
  items : List BillItemData
  deriving DecidableEq

/-- The relational store: one list per table. -/
structure HMSState where
  patients : List Patient
  doctors : List Doctor
  appointments : List Appointment
  bills : List Bill
  deriving DecidableEq

/-- Result of a route handler: the new state on success, or the HTTP
status code, error message and the (unchanged) state on failure. -/
inductive RResult where
  | ok : HMSState → RResult
  | err : Nat → String → HMSState → RResult
  deriving DecidableEq

/-- `status IN ('pending', 'confirmed')`, the filter used by
`Appointment.check_availability`. -/
def AppointmentStatus.isActive : AppointmentStatus → Bool
  | .pending => true
  | .confirmed => true
  | _ => false

/-- The row filter of `Appointment.check_availability`: exact match on
`(doctor_id, date, time)` and active status. -/
def Appointment.blocksSlot (a : Appointment) (doctor_id date time : String) : Bool :=
  a.doctor_id == doctor_id && a.date == date && a.time == time && a.status.isActive

/-- `Appointment.check_availability` (models/appointment.py):
`first()` over the filtered query, then `existing is None`. -/
def Appointment.check_availability (appointments : List Appointment)
    (doctor_id date time : String) : Bool :=
  (appointments.find? (fun a => a.blocksSlot doctor_id date time)).isNone

def findPatient (s : HMSState) (pid : String) : Option Patient :=
  s.patients.find? (fun p => p.id == pid)

def findDoctor (s : HMSState) (did : String) : Option Doctor :=
  s.doctors.find? (fun d => d.id == did)

def findAppointment (s : HMSState) (aid : String) : Option Appointment :=
  s.appointments.find? (fun a => a.id == aid)

def findBill (s : HMSState) (bid : String) : Option Bill :=
  s.bills.find? (fun b => b.id == bid)

def replaceAppointment (s : HMSState) (a : Appointment) : HMSState :=
  { s with appointments := s.appointments.map (fun x => if x.id == a.id then a else x) }

def replaceBill (s : HMSState) (b : Bill) : HMSState :=
  { s with bills := s.bills.map (fun x => if x.id == b.id then b else x) }

/-- Update payload for `Patient.update` (models/patient.py).  A `none`
field is a key absent from the JSON body.  `id` and `created_at` keys may
be present but are on the denylist of the source's `setattr` loop.  The
`updated_at` column is overwritten with `datetime.utcnow()` after the
loop, so a payload value for it never survives and it is not represented
in the payload. -/
structure PatientUpdateData where
  id : Option String := none
  created_at : Option Nat := none
  name : Option String := none
  age : Option Nat := none
  gender : Option Gender := none
  phone : Option String := none
  email : Option (Option String) := none
  blood_group : Option (Option BloodGroup) := none
  address : Option (Option String) := none
  medical_history : Option (Option String) := none
  deriving DecidableEq

/-- `Patient.update` (models/patient.py): `setattr` for every payload key
the model has, excluding `id` and `created_at`, then stamp `updated_at`. -/
def Patient.update (p : Patient) (data : PatientUpdateData) (now : Nat) : Patient :=
  { p with
    name := data.name.getD p.name
    age := data.age.getD p.age
    gender := data.gender.getD p.gender
    phone := data.phone.getD p.phone
    email := data.email.getD p.email
    blood_group := data.blood_group.getD p.blood_group
    address := data.address.getD p.address
    medical_history := data.medical_history.getD p.medical_history
    updated_at := now }

/-- Update payload for `Doctor.update` (models/doctor.py).  `id` and
`created_at` keys may appear but are on the source's denylist. -/
structure DoctorUpdateData where
  id : Option String := none
  created_at : Option Nat := none
  name : Option String := none
  specialization : Option String := none
  phone : Option String := none
  email : Option String := none
  experience : Option Nat := none
  qualification : Option String := none
  consultation_fee : Option ℚ := none
  status : Option DoctorStatus := none
  address : Option (Option String) := none
  deriving DecidableEq

/-- `Doctor.update` (models/doctor.py): `setattr` for every payload key
the model has, excluding `id` and `created_at`, then stamp `updated_at`. -/
def Doctor.update (d : Doctor) (data : DoctorUpdateData) (now : Nat) : Doctor :=
  { d with
    name := data.name.getD d.name
    specialization := data.specialization.getD d.specialization
    phone := data.phone.getD d.phone
    email := data.email.getD d.email
    experience := data.experience.getD d.experience
    qualification := data.qualification.getD d.qualification
    consultation_fee := data.consultation_fee.getD d.consultation_fee
    status := data.status.getD d.status
    address := data.address.getD d.address
    updated_at := now }

/-- Update payload for `Appointment.update` (models/appointment.py).
`id`, `created_at`, `patient_id` and `doctor_id` keys may appear but are
on the source's denylist. -/
structure AppointmentUpdateData where
  id : Option String := none
  created_at : Option Nat := none
  patient_id : Option String := none
  doctor_id : Option String := none
  date : Option String := none
  time : Option String := none
  reason : Option String := none
  status : Option AppointmentStatus := none
  notes : Option (Option String) := none
  deriving DecidableEq

/-- `Appointment.update` (models/appointment.py): `setattr` for every
payload key the model has, excluding `id`, `created_at`, `patient_id` and
`doctor_id`; `date`/`time` strings are parsed (modelled as the canonical
string); then `updated_at` is stamped. -/
def Appointment.update (a : Appointment) (data : AppointmentUpdateData) (now : Nat) :
    Appointment :=
  { a with
    date := data.date.getD a.date
    time := data.time.getD a.time
    reason := data.reason.getD a.reason
    status := data.status.getD a.status
    notes := data.notes.getD a.notes
    updated_at := now }

/-- Create payload for `Bill.create` (models/billing.py), after the
route's required-field validation.  `discount` and `tax` are the payload
numbers fed to the total computation (`tax` is a tax *rate* here); absent
keys default to `0` via `data.get(..., 0)`. -/
structure BillCreateData where
  patient_id : String
  appointment_id : Option String := none
  discount : Option ℚ := none
  tax : Option ℚ := none
  status : Option BillStatus := none
  payment_method : Option PaymentMethod := none
  notes : Option String := none
  deriving DecidableEq

/-- `sum(Decimal(str(item['amount'])) for item in items_data)`. -/
def billSubtotal (items : List BillItemData) : ℚ :=
  (items.map (fun i => i.amount)).sum

/-- `Bill.create` (models/billing.py), the record constructed after the
route's checks pass.  ID generation (`B####`) is modelled separately by
the identifier generator; the generated id is passed in as `newId`. -/
def Bill.create (data : BillCreateData) (items_data : List BillItemData)
    (newId : String) (now : Nat) : Bill :=
  let subtotal := billSubtotal items_data
  let discount := data.discount.getD 0
  let tax_rate := data.tax.getD 0
  let tax_amount := (subtotal - discount) * (tax_rate / 100)
  let total := subtotal - discount + tax_amount
  { id := newId
    patient_id := data.patient_id
    appointment_id := data.appointment_id
    subtotal := subtotal
    discount := discount
    tax := tax_amount
    total_amount := total
    status := data.status.getD .pending
    payment_method := data.payment_method
    notes := data.notes
    date := now
    created_at := now
    updated_at := now
    items := items_data }

/-- Update payload for `Bill.update` (models/billing.py).  `id`,
`created_at` and `patient_id` keys may appear but are on the source's
denylist; monetary keys are converted with `Decimal(str(value))`.  The
`items` key of the request body is passed separately as `items_data`,
mirroring the route's `data.get('items')`. -/
structure BillUpdateData where
  id : Option String := none
  created_at : Option Nat := none
  patient_id : Option String := none
  appointment_id : Option (Option String) := none
  subtotal : Option ℚ := none
  discount : Option ℚ := none
  tax : Option ℚ := none
  total_amount : Option ℚ := none
  status : Option BillStatus := none
  payment_method : Option (Option PaymentMethod) := none
  notes : Option (Option String) := none
  date : Option Nat := none
  deriving DecidableEq

/-- The `setattr` loop of `Bill.update`: every payload key the model has,
excluding `id`, `created_at` and `patient_id`, is applied directly. -/
def Bill.applyFields (b : Bill) (data : BillUpdateData) : Bill :=
  { b with
    appointment_id := data.appointment_id.getD b.appointment_id
    subtotal := data.subtotal.getD b.subtotal
    discount := data.discount.getD b.discount
    tax := data.tax.getD b.tax
    total_amount := data.total_amount.getD b.total_amount
    status := data.status.getD b.status
    payment_method := data.payment_method.getD b.payment_method
    notes := data.notes.getD b.notes
    date := data.date.getD b.date }

/-- The exception raised inside the `setattr` loop of `Bill.update` when
the request body carries a non-empty `items` list: the `Bill` model has
an `items` relationship attribute (billing.py line 36) that is not on the
denylist, so the loop executes `setattr(self, 'items', <raw JSON dicts>)`
and the instrumented relationship raises on the dict members (no
`_sa_instance_state`); nothing is committed. -/
def billItemsSetattrError : String :=
  "items relationship assignment of raw dicts raises in the ORM"

/-- `Bill.update` (models/billing.py): the `setattr` loop applies every
payload key the model has, excluding `id`, `created_at`, `patient_id`.
Because the `items` relationship is also an attribute of the model and
the route passes the request body unmodified, an `items` key carrying a
non-empty list makes the loop raise on the relationship assignment; the
exception escapes the method and nothing is committed (`Except.error`).
An empty list assigns cleanly; then — `items_data is not None` —
wholesale item replacement and total recomputation run with
`data.get('discount', self.discount)` and `data.get('tax', self.tax)` as
inputs and `updated_at` is stamped.  When no `items` key is supplied the
loop is `applyFields` alone and `total_amount` is not recomputed.
(An `items` key with JSON null also raises on the relationship
assignment in the source; that payload point is not represented here.) -/
def Bill.update (b : Bill) (data : BillUpdateData) (items_data : Option (List BillItemData))
    (now : Nat) : Except String Bill :=
  match items_data with
  | none => .ok { b.applyFields data with updated_at := now }
  | some items =>
    if items = [] then
      let b1 := b.applyFields data
      let subtotal := billSubtotal items
      let discount := data.discount.getD b1.discount
      let tax_rate := data.tax.getD b1.tax
      let tax_amount := (subtotal - discount) * (tax_rate / 100)
      let total := subtotal - discount + tax_amount
      .ok { b1 with
            items := items
            subtotal := subtotal
            discount := discount
            tax := tax_amount
            total_amount := total
            updated_at := now }
    else .error billItemsSetattrError

/-- `update_bill` (routes/billing_routes.py): 404 when the bill does not
exist; 400 when its status is `paid`; 404 when the payload names a
non-existent appointment (a truthy `appointment_id`, i.e. present and
non-null); otherwise `Bill.update` runs — committing on success, while an
exception raised inside it is caught by the route's generic handler,
which returns 500 with nothing persisted. -/
def update_bill (s : HMSState) (bill_id : String) (data : BillUpdateData)
    (items_data : Option (List BillItemData)) (now : Nat) : RResult :=
  match findBill s bill_id with
  | none => .err 404 "Bill not found" s
  | some b =>
    if b.status = .paid then .err 400 "Cannot update a paid bill" s
    else
      match data.appointment_id with
      | some (some aid) =>
        if (findAppointment s aid).isNone then .err 404 "Appointment not found" s
        else
          match b.update data items_data now with
          | .ok b2 => .ok (replaceBill s b2)
          | .error _ => .err 500 "An error occurred" s
      | _ =>
        match b.update data items_data now with
        | .ok b2 => .ok (replaceBill s b2)
        | .error _ => .err 500 "An error occurred" s

/-- `delete_bill` (routes/billing_routes.py): 404 when the bill does not
exist; 400 when its status is `paid`; otherwise the row is deleted. -/
def delete_bill (s : HMSState) (bill_id : String) : RResult :=
  match findBill s bill_id with
  | none => .err 404 "Bill not found" s
  | some b =>
    if b.status = .paid then .err 400 "Cannot delete a paid bill" s
    else .ok { s with bills := s.bills.filter (fun x => !(x.id == bill_id)) }

/-- `confirm_appointment` (routes/appointment_routes.py): 404 when
missing, 400 when already confirmed, 400 when cancelled, otherwise
`Appointment.confirm` sets the status to `confirmed`. -/
def confirm_appointment (s : HMSState) (appointment_id : String) (now : Nat) : RResult :=
  match findAppointment s appointment_id with
  | none => .err 404 "Appointment not found" s
  | some a =>
    if a.status = .confirmed then .err 400 "Appointment is already confirmed" s
    else if a.status = .cancelled then .err 400 "Cannot confirm a cancelled appointment" s
    else .ok (replaceAppointment s { a with status := .confirmed, updated_at := now })

/-- `cancel_appointment` (routes/appointment_routes.py): 404 when
missing, 400 when already cancelled, 400 when completed, otherwise
`Appointment.cancel` sets the status to `cancelled`. -/
def cancel_appointment (s : HMSState) (appointment_id : String) (now : Nat) : RResult :=
  match findAppointment s appointment_id with
  | none => .err 404 "Appointment not found" s
  | some a =>
    if a.status = .cancelled then .err 400 "Appointment is already cancelled" s
    else if a.status = .completed then .err 400 "Cannot cancel a completed appointment" s
    else .ok (replaceAppointment s { a with status := .cancelled, updated_at := now })

/-- `complete_appointment` (routes/appointment_routes.py): 404 when
missing, 400 when already completed, 400 when cancelled, otherwise
`Appointment.complete` sets the status to `completed`. -/
def complete_appointment (s : HMSState) (appointment_id : String) (now : Nat) : RResult :=
  match findAppointment s appointment_id with
  | none => .err 404 "Appointment not found" s
  | some a =>
    if a.status = .completed then .err 400 "Appointment is already completed" s
    else if a.status = .cancelled then .err 400 "Cannot complete a cancelled appointment" s
    else .ok (replaceAppointment s { a with status := .completed, updated_at := now })

/-- `update_appointment` (routes/appointment_routes.py): 404 when
missing; when the payload mentions `date`, `time` or `doctor_id`, the
target slot (payload value, defaulting to the appointment's current
value) is checked with `Appointment.check_availability` over the whole
table — the appointment being updated is not excluded; on failure the
request is rejected with 400, otherwise `Appointment.update` runs. -/
def update_appointment (s : HMSState) (appointment_id : String)
    (data : AppointmentUpdateData) (now : Nat) : RResult :=
  match findAppointment s appointment_id with
  | none => .err 404 "Appointment not found" s
  | some a =>
    if data.date.isSome || data.time.isSome || data.doctor_id.isSome then
      let new_date := data.date.getD a.date
      let new_time := data.time.getD a.time
      let new_doctor := data.doctor_id.getD a.doctor_id
      if !(Appointment.check_availability s.appointments new_doctor new_date new_time) then
        .err 400 "Requested time slot is not available" s
      else .ok (replaceAppointment s (a.update data now))
    else .ok (replaceAppointment s (a.update data now))

/-- `delete_doctor` (routes/doctor_routes.py): 404 when missing; 400 when
`Appointment.query.filter_by(doctor_id=...).count() > 0`; otherwise the
row is deleted. -/
def delete_doctor (s : HMSState) (doctor_id : String) : RResult :=
  match findDoctor s doctor_id with
  | none => .err 404 "Doctor not found" s
  | some _ =>
    let appointments := (s.appointments.filter (fun a => a.doctor_id == doctor_id)).length
    if appointments > 0 then
      .err 400 "Cannot delete doctor with existing appointments" s
    else .ok { s with doctors := s.doctors.filter (fun d => !(d.id == doctor_id)) }

/-- `delete_patient` (routes/patient_routes.py): 404 when missing; 400
when the patient has any appointment or any bill; otherwise the row is
deleted. -/
def delete_patient (s : HMSState) (patient_id : String) : RResult :=
  match findPatient s patient_id with
  | none => .err 404 "Patient not found" s
  | some _ =>
    let appointments := (s.appointments.filter (fun a => a.patient_id == patient_id)).length
    let bills := (s.bills.filter (fun b => b.patient_id == patient_id)).length
    if appointments > 0 || bills > 0 then
      .err 400 "Cannot delete patient with existing appointments or bills" s
    else .ok { s with patients := s.patients.filter (fun p => !(p.id == patient_id)) }

/-- `delete_appointment` (routes/appointment_routes.py): 404 when
missing; 400 when `Bill.query.filter_by(appointment_id=...).count() > 0`;
otherwise the row is deleted. -/
def delete_appointment (s : HMSState) (appointment_id : String) : RResult :=
  match findAppointment s appointment_id with
  | none => .err 404 "Appointment not found" s
  | some _ =>
    let bills := (s.bills.filter (fun b => b.appointment_id == some appointment_id)).length
    if bills > 0 then
      .err 400 "Cannot delete appointment with existing bills" s
    else .ok { s with appointments := s.appointments.filter (fun a => !(a.id == appointment_id)) }

/-!
Identifier generator (`Patient.create`, `Doctor.create`,
`Appointment.create`, `Bill.create` all share the same scheme):
`Model.query.order_by(Model.id.desc()).first()` picks the record whose
id string sorts last; `int(last.id[1:]) + 1` parses and increments the
numeric suffix; `f'{letter}{str(new_num).zfill(4)}'` re-pads.  All ids of
one entity type share the same prefix letter, so comparing full id
strings is comparing the decimal-digit suffix strings character by
character — embedded here as lists of decimal digit values.
-/

/-- Numeric value of a most-significant-first digit string
(`int(last.id[1:])`). -/
def digitsVal : List Nat → Nat
  | [] => 0
  | d :: ds => d * 10 ^ ds.length + digitsVal ds

/-- Character-by-character string comparison on digit strings: the
ordering used by `order_by(id.desc())` on the suffixes. -/
def lexLt : List Nat → List Nat → Bool
  | _, [] => false
  | [], _ :: _ => true
  | a :: as, b :: bs => decide (a < b) || (a == b && lexLt as bs)

/-- The larger of two suffixes under string comparison. -/
def lexMax (a b : List Nat) : List Nat :=
  if lexLt a b then b else a

/-- `order_by(id.desc()).first()`: the suffix that sorts last, `none` for
an empty table. -/
def lastIdSuffix : List (List Nat) → Option (List Nat)
  | [] => none
  | x :: xs => some (xs.foldl lexMax x)

/-- Decimal digits of `n`, most significant first (`str(n)`), with a
structural fuel argument so the definition reduces in the kernel; the
fuel `n + 1` always suffices. -/
def toDigitsAux : Nat → Nat → List Nat
  | 0, _ => []
  | fuel + 1, n => if n < 10 then [n] else toDigitsAux fuel (n / 10) ++ [n % 10]

/-- Decimal digits of `n`, most significant first (`str(n)`). -/
def toDigits (n : Nat) : List Nat :=
  toDigitsAux (n + 1) n

/-- `str(new_num).zfill(4)`: left-pad with zeros to width 4; longer
strings are left unchanged. -/
def zfill4 (ds : List Nat) : List Nat :=
  List.replicate (4 - ds.length) 0 ++ ds

/-- The generated id suffix: increment the numeric value of the suffix
that sorts last (or start at 1 for an empty table) and re-pad. -/
def nextIdSuffix (ids : List (List Nat)) : List Nat :=
  match lastIdSuffix ids with
  | none => zfill4 (toDigits 1)
  | some last => zfill4 (toDigits (digitsVal last + 1))

/-- A well-formed pre-overflow id table: every suffix is exactly four
decimal digits. -/
def WF4 (ids : List (List Nat)) : Prop :=
  ∀ s ∈ ids, s.length = 4 ∧ ∀ d ∈ s, d < 10

lemma isActive_iff (st : AppointmentStatus) :
    st.isActive = true ↔ st = .pending ∨ st = .confirmed := by
  cases st <;> simp [AppointmentStatus.isActive]

lemma isNone_eq_false_iff {α : Type} (o : Option α) : o.isNone = false ↔ o.isSome = true := by
  cases o <;> simp

/-- C2: the availability check returns false if and only if some
appointment exists with exactly that `(doctor_id, date, time)` whose
status is `pending` or `confirmed`; cancelled and completed appointments,
and appointments at any other date or time, never block the slot. -/
theorem c2_check_availability_iff (appointments : List Appointment)
    (doctor_id date time : String) :
    Appointment.check_availability appointments doctor_id date time = false ↔
      ∃ a ∈ appointments, a.doctor_id = doctor_id ∧ a.date = date ∧ a.time = time ∧
        (a.status = .pending ∨ a.status = .confirmed) := by
  rw [Appointment.check_availability, isNone_eq_false_iff, List.find?_isSome]
  simp only [Appointment.blocksSlot, Bool.and_eq_true, beq_iff_eq, isActive_iff, and_assoc]

/-- C1: creating a bill from a non-empty item list with discount `d` and
tax rate `r` yields exactly `subtotal = Σ item amounts`,
`tax = (subtotal - d) * (r / 100)` and
`total_amount = subtotal - d + tax`, in exact (rational) arithmetic, and
the concrete items `[10.00, 5.50]` with discount `1.50` and tax rate `10`
yield subtotal `15.50`, tax `1.40` and total `15.40`; but the claimed
same computation on update never happens for a non-empty item list: the
`setattr` loop of `Bill.update` raises assigning the payload's raw
`items` dicts to the relationship, so the route returns 500 and commits
nothing. -/
theorem c1_bill_totals (items : List BillItemData) (d r : ℚ) (cd : BillCreateData)
    (nid : String) (now : Nat)
    (hne : items ≠ []) (hd : cd.discount = some d) (ht : cd.tax = some r) :
    ((Bill.create cd items nid now).subtotal = billSubtotal items ∧
     (Bill.create cd items nid now).tax = (billSubtotal items - d) * (r / 100) ∧
     (Bill.create cd items nid now).total_amount =
       billSubtotal items - d + (billSubtotal items - d) * (r / 100)) ∧
    ((Bill.create { patient_id := "P0001", discount := some (3/2), tax := some 10 }
        [⟨"Consultation", 10⟩, ⟨"Lab", 11/2⟩] nid now).subtotal = 31/2 ∧
     (Bill.create { patient_id := "P0001", discount := some (3/2), tax := some 10 }
        [⟨"Consultation", 10⟩, ⟨"Lab", 11/2⟩] nid now).tax = 7/5 ∧
     (Bill.create { patient_id := "P0001", discount := some (3/2), tax := some 10 }
        [⟨"Consultation", 10⟩, ⟨"Lab", 11/2⟩] nid now).total_amount = 77/5) ∧
    (∀ (b : Bill) (ud : BillUpdateData),
      Bill.update b ud (some items) now = Except.error billItemsSetattrError) ∧
    (∀ (s : HMSState) (bill_id : String) (b : Bill) (ud : BillUpdateData),
      findBill s bill_id = some b → b.status ≠ .paid → ud.appointment_id = none →
      update_bill s bill_id ud (some items) now = .err 500 "An error occurred" s) := by
  refine ⟨?_, ?_, ?_, ?_⟩
  · simp [Bill.create, hd, ht]
  · refine ⟨?_, ?_, ?_⟩ <;> simp [Bill.create, billSubtotal] <;> norm_num
  · intro b ud
    simp [Bill.update, hne]
  · intro s bill_id b ud hfind hnp happ
    unfold update_bill
    rw [hfind, happ]
    simp [hnp, Bill.update, hne]

/-- Example patient used by concrete instances (§8 scenario of the spec). -/
def exPatient : Patient :=
  { id := "P0001", name := "A", age := 30, gender := .male, phone := "111",
    email := none, blood_group := none, address := none, medical_history := none,
    created_at := 0, updated_at := 0 }

/-- Example doctor used by concrete instances. -/
def exDoctor : Doctor :=
  { id := "D0001", name := "Dr", specialization := "GP", phone := "222",
    email := "dr@example.com", experience := 5, qualification := "MBBS",
    consultation_fee := 500, status := .active, address := none,
    created_at := 0, updated_at := 0 }

/-- Example appointment used by concrete instances. -/
def exAppointment : Appointment :=
  { id := "A0001", patient_id := "P0001", doctor_id := "D0001",
    date := "2024-01-10", time := "09:00", reason := "checkup",
    status := .pending, notes := none, created_at := 0, updated_at := 0 }

/-- Example pending bill used by concrete instances. -/
def exBill : Bill :=
  { id := "B0001", patient_id := "P0001", appointment_id := some "A0001",
    subtotal := 10, discount := 0, tax := 0, total_amount := 10,
    status := .pending, payment_method := none, notes := none,
    date := 0, created_at := 0, updated_at := 0, items := [⟨"Consult", 10⟩] }

/-- Example store with one pending bill. -/
def sPending : HMSState := ⟨[exPatient], [exDoctor], [exAppointment], [exBill]⟩

/-- Example store with one paid bill. -/
def sPaid : HMSState :=
  ⟨[exPatient], [exDoctor], [exAppointment], [{ exBill with status := .paid }]⟩

/-- C1 witness: the theorem applied at the concrete example input,
including the failing non-empty-items update at the pending example
bill. -/
theorem c1_witness :
    ((Bill.create { patient_id := "P0001", discount := some (3/2), tax := some 10 }
       [⟨"Consultation", 10⟩, ⟨"Lab", 11/2⟩] "B0001" 0).subtotal = 31/2 ∧
     (Bill.create { patient_id := "P0001", discount := some (3/2), tax := some 10 }
       [⟨"Consultation", 10⟩, ⟨"Lab", 11/2⟩] "B0001" 0).tax = 7/5 ∧
     (Bill.create { patient_id := "P0001", discount := some (3/2), tax := some 10 }
       [⟨"Consultation", 10⟩, ⟨"Lab", 11/2⟩] "B0001" 0).total_amount = 77/5) ∧
    update_bill sPending "B0001" {} (some [⟨"Consultation", 10⟩, ⟨"Lab", 11/2⟩]) 0 =
      .err 500 "An error occurred" sPending :=
  ⟨(c1_bill_totals [⟨"Consultation", 10⟩, ⟨"Lab", 11/2⟩] (3/2) 10
      { patient_id := "P0001", discount := some (3/2), tax := some 10 } "B0001" 0
      (by decide) rfl rfl).2.1,
   (c1_bill_totals [⟨"Consultation", 10⟩, ⟨"Lab", 11/2⟩] (3/2) 10
      { patient_id := "P0001", discount := some (3/2), tax := some 10 } "B0001" 0
      (by decide) rfl rfl).2.2.2 sPending "B0001" exBill {} (by decide)
      (by decide) rfl⟩

/-- C3: once a bill's status is `paid`, every update attempt and every
delete attempt on it fails with the 400 conflict response, regardless of
the payload, and the store is left unchanged. -/
theorem c3_paid_bill_immutable (s : HMSState) (bill_id : String) (b : Bill)
    (data : BillUpdateData) (items_data : Option (List BillItemData)) (now : Nat)
    (hfind : findBill s bill_id = some b) (hpaid : b.status = .paid) :
    update_bill s bill_id data items_data now = .err 400 "Cannot update a paid bill" s ∧
    delete_bill s bill_id = .err 400 "Cannot delete a paid bill" s := by
  unfold update_bill delete_bill
  rw [hfind]
  simp [hpaid]

/-- C3 witness: the theorem applied to a store holding one paid bill. -/
theorem c3_witness :
    update_bill sPaid "B0001" { discount := some 1 } none 5 =
      .err 400 "Cannot update a paid bill" sPaid ∧
    delete_bill sPaid "B0001" = .err 400 "Cannot delete a paid bill" sPaid :=
  c3_paid_bill_immutable sPaid "B0001" { exBill with status := .paid }
    { discount := some 1 } none 5 (by decide) rfl

/-- C4: the §4.4 transition table holds exactly: confirm succeeds from
`pending` and is rejected on a confirmed or a cancelled appointment;
cancel succeeds from `pending` or `confirmed` and is rejected on a
cancelled or a completed appointment; complete succeeds from `pending` or
`confirmed` and is rejected on a completed or a cancelled appointment;
every rejection returns the store unchanged. -/
theorem c4_transition_table (s : HMSState) (aid : String) (a : Appointment) (now : Nat)
    (hfind : findAppointment s aid = some a) :
    (a.status = .pending →
      confirm_appointment s aid now =
        .ok (replaceAppointment s { a with status := .confirmed, updated_at := now })) ∧
    (a.status = .confirmed →
      confirm_appointment s aid now = .err 400 "Appointment is already confirmed" s) ∧
    (a.status = .cancelled →
      confirm_appointment s aid now = .err 400 "Cannot confirm a cancelled appointment" s) ∧
    ((a.status = .pending ∨ a.status = .confirmed) →
      cancel_appointment s aid now =
        .ok (replaceAppointment s { a with status := .cancelled, updated_at := now })) ∧
    (a.status = .cancelled →
      cancel_appointment s aid now = .err 400 "Appointment is already cancelled" s) ∧
    (a.status = .completed →
      cancel_appointment s aid now = .err 400 "Cannot cancel a completed appointment" s) ∧
    ((a.status = .pending ∨ a.status = .confirmed) →
      complete_appointment s aid now =
        .ok (replaceAppointment s { a with status := .completed, updated_at := now })) ∧
    (a.status = .completed →
      complete_appointment s aid now = .err 400 "Appointment is already completed" s) ∧
    (a.status = .cancelled →
      complete_appointment s aid now = .err 400 "Cannot complete a cancelled appointment" s) := by
  unfold confirm_appointment cancel_appointment complete_appointment
  rw [hfind]
  refine ⟨?_, ?_, ?_, ?_, ?_, ?_, ?_, ?_, ?_⟩ <;> intro h <;>
    first
    | (rcases h with h | h <;> simp [h])
    | simp [h]

/-- C4 witness: the theorem applied to a store holding one pending
appointment. -/
theorem c4_witness :
    confirm_appointment sPending "A0001" 5 =
      .ok (replaceAppointment sPending
        { exAppointment with status := .confirmed, updated_at := 5 }) ∧
    cancel_appointment sPending "A0001" 5 =
      .ok (replaceAppointment sPending
        { exAppointment with status := .cancelled, updated_at := 5 }) :=
  ⟨(c4_transition_table sPending "A0001" exAppointment 5 (by decide)).1 rfl,
   (c4_transition_table sPending "A0001" exAppointment 5 (by decide)).2.2.2.1 (Or.inl rfl)⟩

/-- C9: confirm is rejected if and only if the appointment's status is
`confirmed` or `cancelled`; on a `completed` appointment confirm succeeds
and moves the status back to `confirmed`. -/
theorem c9_confirm_completed_not_terminal (s : HMSState) (aid : String) (a : Appointment)
    (now : Nat) (hfind : findAppointment s aid = some a) :
    ((∃ c m, confirm_appointment s aid now = .err c m s) ↔
      (a.status = .confirmed ∨ a.status = .cancelled)) ∧
    (a.status = .completed →
      confirm_appointment s aid now =
        .ok (replaceAppointment s { a with status := .confirmed, updated_at := now })) := by
  unfold confirm_appointment
  rw [hfind]
  cases ha : a.status <;> simp [ha]

/-- C9 witness: the theorem applied to a store holding one completed
appointment. -/
theorem c9_witness :
    confirm_appointment ⟨[exPatient], [exDoctor],
        [{ exAppointment with status := .completed }], [exBill]⟩ "A0001" 5 =
      .ok (replaceAppointment ⟨[exPatient], [exDoctor],
        [{ exAppointment with status := .completed }], [exBill]⟩
        { { exAppointment with status := .completed } with
            status := .confirmed, updated_at := 5 }) :=
  (c9_confirm_completed_not_terminal
    ⟨[exPatient], [exDoctor], [{ exAppointment with status := .completed }], [exBill]⟩
    "A0001" { exAppointment with status := .completed } 5 (by decide)).2 rfl

/-- C10: the availability check on appointment update does not exclude
the appointment being updated: for an active (pending or confirmed)
appointment, any payload that mentions `date`, `time` or `doctor_id` but
resolves to the appointment's own current slot is rejected as
unavailable, leaving the store unchanged. -/
theorem c10_self_slot_update_rejected (s : HMSState) (aid : String) (a : Appointment)
    (data : AppointmentUpdateData) (now : Nat)
    (hfind : findAppointment s aid = some a)
    (hactive : a.status = .pending ∨ a.status = .confirmed)
    (hmention : (data.date.isSome || data.time.isSome || data.doctor_id.isSome) = true)
    (hdate : data.date.getD a.date = a.date)
    (htime : data.time.getD a.time = a.time)
    (hdoctor : data.doctor_id.getD a.doctor_id = a.doctor_id) :
    update_appointment s aid data now = .err 400 "Requested time slot is not available" s := by
  have hmem : a ∈ s.appointments := List.mem_of_find?_eq_some hfind
  have hblocks : a.blocksSlot a.doctor_id a.date a.time = true := by
    simp [Appointment.blocksSlot, isActive_iff, hactive]
  have havail : Appointment.check_availability s.appointments a.doctor_id a.date a.time
      = false := by
    rw [Appointment.check_availability, isNone_eq_false_iff, List.find?_isSome]
    exact ⟨a, hmem, hblocks⟩
  unfold update_appointment
  rw [hfind]
  simp only [hmention, hdate, htime, hdoctor, if_true, havail, Bool.not_false, if_pos]

/-- C10 witness: updating the pending appointment with its own date in
the payload is rejected. -/
theorem c10_witness :
    update_appointment sPending "A0001" { date := some "2024-01-10" } 5 =
      .err 400 "Requested time slot is not available" sPending :=
  c10_self_slot_update_rejected sPending "A0001" exAppointment
    { date := some "2024-01-10" } 5 (by decide) (Or.inl rfl) rfl rfl rfl rfl

/-- C7: deleting a doctor with an appointment, a patient with an
appointment or a bill, or an appointment with a bill is rejected with the
400 dependency response and leaves the store unchanged; deleting a doctor
or a patient with zero dependent records succeeds. -/
theorem c7_dependent_delete_block (s : HMSState) :
    (∀ doctor_id d, findDoctor s doctor_id = some d →
      (0 < (s.appointments.filter (fun a => a.doctor_id == doctor_id)).length →
        delete_doctor s doctor_id =
          .err 400 "Cannot delete doctor with existing appointments" s) ∧
      ((s.appointments.filter (fun a => a.doctor_id == doctor_id)).length = 0 →
        delete_doctor s doctor_id =
          .ok { s with doctors := s.doctors.filter (fun x => !(x.id == doctor_id)) })) ∧
    (∀ patient_id p, findPatient s patient_id = some p →
      (0 < (s.appointments.filter (fun a => a.patient_id == patient_id)).length ∨
       0 < (s.bills.filter (fun b => b.patient_id == patient_id)).length →
        delete_patient s patient_id =
          .err 400 "Cannot delete patient with existing appointments or bills" s) ∧
      ((s.appointments.filter (fun a => a.patient_id == patient_id)).length = 0 →
       (s.bills.filter (fun b => b.patient_id == patient_id)).length = 0 →
        delete_patient s patient_id =
          .ok { s with patients := s.patients.filter (fun x => !(x.id == patient_id)) })) ∧
    (∀ appointment_id a, findAppointment s appointment_id = some a →
      0 < (s.bills.filter (fun b => b.appointment_id == some appointment_id)).length →
      delete_appointment s appointment_id =
        .err 400 "Cannot delete appointment with existing bills" s) := by
  refine ⟨?_, ?_, ?_⟩
  · intro doctor_id d hfind
    unfold delete_doctor
    rw [hfind]
    constructor
    · intro hpos
      simp [hpos]
    · intro hzero
      simp [hzero]
  · intro patient_id p hfind
    unfold delete_patient
    rw [hfind]
    constructor
    · intro hpos
      rcases hpos with hpos | hpos <;> simp [hpos]
    · intro hz1 hz2
      simp [hz1, hz2]
  · intro appointment_id a hfind hpos
    unfold delete_appointment
    rw [hfind]
    simp [hpos]

/-- C7 witness: the blocked and the unblocked case at concrete stores. -/
theorem c7_witness :
    delete_doctor sPending "D0001" =
      .err 400 "Cannot delete doctor with existing appointments" sPending ∧
    delete_doctor ⟨[exPatient], [exDoctor], [], []⟩ "D0001" =
      .ok { (⟨[exPatient], [exDoctor], [], []⟩ : HMSState) with
              doctors := ([exDoctor].filter (fun x => !(x.id == "D0001"))) } ∧
    delete_patient sPending "P0001" =
      .err 400 "Cannot delete patient with existing appointments or bills" sPending ∧
    delete_patient ⟨[exPatient], [exDoctor], [], []⟩ "P0001" =
      .ok { (⟨[exPatient], [exDoctor], [], []⟩ : HMSState) with
              patients := ([exPatient].filter (fun x => !(x.id == "P0001"))) } ∧
    delete_appointment sPending "A0001" =
      .err 400 "Cannot delete appointment with existing bills" sPending :=
  ⟨((c7_dependent_delete_block sPending).1 "D0001" exDoctor (by decide)).1 (by decide),
   ((c7_dependent_delete_block ⟨[exPatient], [exDoctor], [], []⟩).1 "D0001" exDoctor
      (by decide)).2 (by decide),
   ((c7_dependent_delete_block sPending).2.1 "P0001" exPatient (by decide)).1
      (Or.inl (by decide)),
   ((c7_dependent_delete_block ⟨[exPatient], [exDoctor], [], []⟩).2.1 "P0001" exPatient
      (by decide)).2 (by decide) (by decide),
   (c7_dependent_delete_block sPending).2.2 "A0001" exAppointment (by decide) (by decide)⟩

/-- C8: update leaves the immutable fields unchanged — `id` and
`created_at` for all four entities, plus `patient_id` and `doctor_id`
for Appointment and `patient_id` for Bill — while every other column
named in the payload is applied verbatim; in particular `Bill.update`
applies payload values for `status`, `appointment_id`, `subtotal`, `tax`
and `total_amount` directly, so a pending bill's status can be set to
`paid` through the generic update route without payment-method
validation. -/
theorem c8_update_immutable_fields :
    (∀ (p : Patient) (d : PatientUpdateData) (now : Nat),
      (p.update d now).id = p.id ∧
      (p.update d now).created_at = p.created_at ∧
      (∀ v, d.name = some v → (p.update d now).name = v) ∧
      (∀ v, d.age = some v → (p.update d now).age = v) ∧
      (∀ v, d.gender = some v → (p.update d now).gender = v) ∧
      (∀ v, d.phone = some v → (p.update d now).phone = v) ∧
      (∀ v, d.email = some v → (p.update d now).email = v) ∧
      (∀ v, d.blood_group = some v → (p.update d now).blood_group = v) ∧
      (∀ v, d.address = some v → (p.update d now).address = v) ∧
      (∀ v, d.medical_history = some v → (p.update d now).medical_history = v)) ∧
    (∀ (dc : Doctor) (d : DoctorUpdateData) (now : Nat),
      (dc.update d now).id = dc.id ∧
      (dc.update d now).created_at = dc.created_at ∧
      (∀ v, d.name = some v → (dc.update d now).name = v) ∧
      (∀ v, d.specialization = some v → (dc.update d now).specialization = v) ∧
      (∀ v, d.phone = some v → (dc.update d now).phone = v) ∧
      (∀ v, d.email = some v → (dc.update d now).email = v) ∧
      (∀ v, d.experience = some v → (dc.update d now).experience = v) ∧
      (∀ v, d.qualification = some v → (dc.update d now).qualification = v) ∧
      (∀ v, d.consultation_fee = some v → (dc.update d now).consultation_fee = v) ∧
      (∀ v, d.status = some v → (dc.update d now).status = v) ∧
      (∀ v, d.address = some v → (dc.update d now).address = v)) ∧
    (∀ (a : Appointment) (d : AppointmentUpdateData) (now : Nat),
      (a.update d now).id = a.id ∧
      (a.update d now).created_at = a.created_at ∧
      (a.update d now).patient_id = a.patient_id ∧
      (a.update d now).doctor_id = a.doctor_id ∧
      (∀ v, d.date = some v → (a.update d now).date = v) ∧
      (∀ v, d.time = some v → (a.update d now).time = v) ∧
      (∀ v, d.reason = some v → (a.update d now).reason = v) ∧
      (∀ v, d.status = some v → (a.update d now).status = v) ∧
      (∀ v, d.notes = some v → (a.update d now).notes = v)) ∧
    (∀ (b : Bill) (d : BillUpdateData) (now : Nat) (b2 : Bill),
      b.update d none now = Except.ok b2 →
      b2.id = b.id ∧
      b2.created_at = b.created_at ∧
      b2.patient_id = b.patient_id ∧
      (∀ v, d.appointment_id = some v → b2.appointment_id = v) ∧
      (∀ v, d.subtotal = some v → b2.subtotal = v) ∧
      (∀ v, d.discount = some v → b2.discount = v) ∧
      (∀ v, d.tax = some v → b2.tax = v) ∧
      (∀ v, d.total_amount = some v → b2.total_amount = v) ∧
      (∀ v, d.status = some v → b2.status = v) ∧
      (∀ v, d.payment_method = some v → b2.payment_method = v) ∧
      (∀ v, d.notes = some v → b2.notes = v) ∧
      (∀ v, d.date = some v → b2.date = v)) ∧
    (∀ (s : HMSState) (bill_id : String) (b : Bill) (now : Nat),
      findBill s bill_id = some b → b.status = .pending →
      ∃ b2, b.update { status := some .paid } none now = Except.ok b2 ∧
        update_bill s bill_id { status := some .paid } none now =
          .ok (replaceBill s b2) ∧
        b2.status = .paid) := by
  refine ⟨?_, ?_, ?_, ?_, ?_⟩
  · intro p d now
    refine ⟨rfl, rfl, ?_, ?_, ?_, ?_, ?_, ?_, ?_, ?_⟩ <;>
      (intro v hv; simp [Patient.update, hv])
  · intro dc d now
    refine ⟨rfl, rfl, ?_, ?_, ?_, ?_, ?_, ?_, ?_, ?_, ?_⟩ <;>
      (intro v hv; simp [Doctor.update, hv])
  · intro a d now
    refine ⟨rfl, rfl, rfl, rfl, ?_, ?_, ?_, ?_, ?_⟩ <;>
      (intro v hv; simp [Appointment.update, hv])
  · intro b d now b2 hok
    simp only [Bill.update, Except.ok.injEq] at hok
    subst hok
    refine ⟨rfl, rfl, rfl, ?_, ?_, ?_, ?_, ?_, ?_, ?_, ?_, ?_⟩ <;>
      (intro v hv; simp [Bill.applyFields, hv])
  · intro s bill_id b now hfind hpending
    refine ⟨{ b.applyFields { status := some .paid } with updated_at := now }, rfl, ?_, ?_⟩
    · unfold update_bill
      rw [hfind]
      simp [hpending, Bill.update]
    · simp [Bill.applyFields]

/-- C8 witness: the theorem's route conjunct applied to the pending
example bill with a status-only payload. -/
theorem c8_witness :
    ∃ b2, exBill.update { status := some BillStatus.paid } none 7 = Except.ok b2 ∧
      update_bill sPending "B0001" { status := some BillStatus.paid } none 7 =
        .ok (replaceBill sPending b2) ∧
      b2.status = BillStatus.paid :=
  c8_update_immutable_fields.2.2.2.2 sPending "B0001" exBill 7 (by decide) rfl

/-- The bill produced by the discount-only update of the example bill:
the loop applies `discount := 1` and nothing recomputes the total. -/
def exBillDiscounted : Bill :=
  { exBill with discount := 1, updated_at := 7 }

/-- C5 counterexample: a successful update that supplies `discount` but
no item list changes the stored discount without recomputing
`total_amount`, so afterwards `total_amount ≠ subtotal - discount + tax`
(the example bill has subtotal 10, discount 0, tax 0, total 10; the
payload sets discount to 1 and the total stays 10 instead of 9). -/
theorem c5_counterexample :
    exBill.update { discount := some 1 } none 7 = Except.ok exBillDiscounted ∧
    update_bill sPending "B0001" { discount := some 1 } none 7 =
      .ok (replaceBill sPending exBillDiscounted) ∧
    exBillDiscounted.total_amount ≠
      exBillDiscounted.subtotal - exBillDiscounted.discount + exBillDiscounted.tax := by
  refine ⟨rfl, by decide, ?_⟩
  simp [exBillDiscounted, exBill]
  norm_num

/-- C5 amended: `total_amount = subtotal - discount + tax` is established
by every create, and by every update that supplies an item list and
commits — which, because the `setattr` loop raises on the `items`
relationship for any non-empty list, is only the empty item list; an
update that changes `discount` or `tax` without supplying items applies
the raw values and does not recompute `total_amount`. -/
theorem c5_amended_recompute_on_items (cd : BillCreateData) (items : List BillItemData)
    (nid : String) (now : Nat) :
    ((Bill.create cd items nid now).total_amount =
      (Bill.create cd items nid now).subtotal - (Bill.create cd items nid now).discount +
        (Bill.create cd items nid now).tax) ∧
    (∀ (b : Bill) (d : BillUpdateData) (b2 : Bill),
      b.update d (some []) now = Except.ok b2 →
      b2.total_amount = b2.subtotal - b2.discount + b2.tax) ∧
    (∀ (b : Bill) (d : BillUpdateData) (l : List BillItemData), l ≠ [] →
      b.update d (some l) now = Except.error billItemsSetattrError) := by
  refine ⟨?_, ?_, ?_⟩
  · simp [Bill.create]
  · intro b d b2 hok
    simp only [Bill.update, if_pos, Except.ok.injEq] at hok
    subst hok
    simp
  · intro b d l hl
    simp [Bill.update, hl]

/-- The bill produced by updating the example bill with an empty item
list: the recompute branch runs over no items. -/
def exBillEmptied : Bill :=
  { exBill with
    items := []
    subtotal := 0
    discount := 0
    tax := 0
    total_amount := 0
    updated_at := 7 }

/-- C5 witness: the amended theorem applied at a committing empty-items
update and at a failing non-empty-items update of the example bill. -/
theorem c5_witness :
    (exBillEmptied.total_amount =
      exBillEmptied.subtotal - exBillEmptied.discount + exBillEmptied.tax) ∧
    exBill.update {} (some [⟨"Scan", 3⟩]) 7 = Except.error billItemsSetattrError :=
  ⟨(c5_amended_recompute_on_items { patient_id := "P0001" } [] "B0002" 7).2.1
      exBill {} exBillEmptied
      (by simp [Bill.update, Bill.applyFields, billSubtotal, exBill, exBillEmptied]),
   (c5_amended_recompute_on_items { patient_id := "P0001" } [] "B0002" 7).2.2
      exBill {} [⟨"Scan", 3⟩] (by decide)⟩

lemma digitsVal_lt_pow (ds : List Nat) (h : ∀ d ∈ ds, d < 10) :
    digitsVal ds < 10 ^ ds.length := by
  induction ds with
  | nil => simp [digitsVal]
  | cons d ds ih =>
    have hd : d < 10 := h d (by simp)
    have hds := ih (fun x hx => h x (by simp [hx]))
    simp only [digitsVal, List.length_cons, pow_succ]
    calc d * 10 ^ ds.length + digitsVal ds
        < (d + 1) * 10 ^ ds.length := by nlinarith
      _ ≤ 10 * 10 ^ ds.length := Nat.mul_le_mul_right _ (by omega)
      _ = 10 ^ ds.length * 10 := by ring

lemma lexLt_digitsVal : ∀ {a b : List Nat}, a.length = b.length →
    (∀ d ∈ a, d < 10) → (∀ d ∈ b, d < 10) → lexLt a b = true →
    digitsVal a < digitsVal b := by
  intro a
  induction a with
  | nil =>
    intro b hlen _ _ h
    cases b with
    | nil => simp [lexLt] at h
    | cons y ys => simp at hlen
  | cons x xs ih =>
    intro b hlen ha hb h
    cases b with
    | nil => simp [lexLt] at h
    | cons y ys =>
      have hlen' : xs.length = ys.length := by simpa using hlen
      have hxs : ∀ d ∈ xs, d < 10 := fun d hd => ha d (by simp [hd])
      have hys : ∀ d ∈ ys, d < 10 := fun d hd => hb d (by simp [hd])
      simp only [lexLt, Bool.or_eq_true, Bool.and_eq_true, decide_eq_true_eq,
        beq_iff_eq] at h
      rcases h with h | ⟨hxy, htail⟩
      · have h1 := digitsVal_lt_pow xs hxs
        simp only [digitsVal, hlen']
        have h2 : digitsVal ys ≥ 0 := Nat.zero_le _
        calc x * 10 ^ ys.length + digitsVal xs
            < (x + 1) * 10 ^ ys.length := by rw [← hlen'] at *; nlinarith
          _ ≤ y * 10 ^ ys.length := Nat.mul_le_mul_right _ (by omega)
          _ ≤ y * 10 ^ ys.length + digitsVal ys := Nat.le_add_right _ _
      · subst hxy
        have := ih hlen' hxs hys htail
        simp only [digitsVal, hlen']
        omega

lemma lexLt_false_digitsVal : ∀ {a b : List Nat}, a.length = b.length →
    (∀ d ∈ a, d < 10) → (∀ d ∈ b, d < 10) → lexLt a b = false →
    digitsVal b ≤ digitsVal a := by
  intro a
  induction a with
  | nil =>
    intro b hlen _ _ _
    cases b with
    | nil => simp [digitsVal]
    | cons y ys => simp at hlen
  | cons x xs ih =>
    intro b hlen ha hb h
    cases b with
    | nil => simp [digitsVal]
    | cons y ys =>
      have hlen' : xs.length = ys.length := by simpa using hlen
      have hxs : ∀ d ∈ xs, d < 10 := fun d hd => ha d (by simp [hd])
      have hys : ∀ d ∈ ys, d < 10 := fun d hd => hb d (by simp [hd])
      simp only [lexLt, Bool.or_eq_false_iff, Bool.and_eq_false_iff,
        decide_eq_false_iff_not, beq_eq_false_iff_ne, ne_eq] at h
      obtain ⟨hnlt, hcase⟩ := h
      rcases hcase with hne | htail
      · have hylt : y < x := by omega
        have : lexLt (y :: ys) (x :: xs) = true := by
          simp [lexLt, hylt]
        exact le_of_lt (lexLt_digitsVal (by simp [hlen']) hb ha this)
      · rcases Nat.lt_or_ge x y with hlt | hge
        · omega
        · have hxy : y ≤ x := hge
          rcases Nat.eq_or_lt_of_le hxy with heq | hlt
          · subst heq
            have := ih hlen' hxs hys htail
            simp only [digitsVal, hlen']
            omega
          · have : lexLt (y :: ys) (x :: xs) = true := by
              simp [lexLt, hlt]
            exact le_of_lt (lexLt_digitsVal (by simp [hlen']) hb ha this)

lemma foldl_lexMax_spec : ∀ (xs : List (List Nat)) (x : List Nat),
    (x.length = 4 ∧ ∀ d ∈ x, d < 10) →
    (∀ y ∈ xs, y.length = 4 ∧ ∀ d ∈ y, d < 10) →
    ((xs.foldl lexMax x).length = 4 ∧ ∀ d ∈ xs.foldl lexMax x, d < 10) ∧
    digitsVal x ≤ digitsVal (xs.foldl lexMax x) ∧
    ∀ y ∈ xs, digitsVal y ≤ digitsVal (xs.foldl lexMax x) := by
  intro xs
  induction xs with
  | nil =>
    intro x hx _
    exact ⟨hx, le_refl _, by simp⟩
  | cons y ys ih =>
    intro x hx hall
    have hy : y.length = 4 ∧ ∀ d ∈ y, d < 10 := hall y (by simp)
    have hys : ∀ z ∈ ys, z.length = 4 ∧ ∀ d ∈ z, d < 10 :=
      fun z hz => hall z (by simp [hz])
    have hmaxwf : (lexMax x y).length = 4 ∧ ∀ d ∈ lexMax x y, d < 10 := by
      unfold lexMax
      split
      · exact hy
      · exact hx
    have hstep : (y :: ys).foldl lexMax x = ys.foldl lexMax (lexMax x y) := by
      simp [List.foldl_cons]
    obtain ⟨hwf, hle, hrest⟩ := ih (lexMax x y) hmaxwf hys
    have hxle : digitsVal x ≤ digitsVal (lexMax x y) := by
      cases hcase : lexLt x y with
      | true =>
        simp only [lexMax, hcase, if_true]
        exact le_of_lt (lexLt_digitsVal (hx.1.trans hy.1.symm) hx.2 hy.2 hcase)
      | false =>
        simp [lexMax, hcase]
    have hyle : digitsVal y ≤ digitsVal (lexMax x y) := by
      cases hcase : lexLt x y with
      | true => simp [lexMax, hcase]
      | false =>
        simp only [lexMax, hcase, if_false, Bool.false_eq_true]
        exact lexLt_false_digitsVal (hx.1.trans hy.1.symm) hx.2 hy.2 hcase
    rw [hstep]
    refine ⟨hwf, hxle.trans hle, ?_⟩
    intro z hz
    rcases List.mem_cons.mp hz with rfl | hz
    · exact hyle.trans hle
    · exact hrest z hz

lemma digitsVal_append_single (xs : List Nat) (d : Nat) :
    digitsVal (xs ++ [d]) = 10 * digitsVal xs + d := by
  induction xs with
  | nil => simp [digitsVal]
  | cons x xs ih =>
    simp only [List.cons_append, digitsVal, List.append_eq, List.length_append,
      List.length_singleton, ih, pow_succ]
    ring

lemma digitsVal_toDigitsAux : ∀ (fuel n : Nat), n < fuel →
    digitsVal (toDigitsAux fuel n) = n := by
  intro fuel
  induction fuel with
  | zero => omega
  | succ fuel ih =>
    intro n hn
    unfold toDigitsAux
    by_cases hlt : n < 10
    · rw [if_pos hlt]
      simp [digitsVal]
    · rw [if_neg hlt]
      have hpos : 0 < n := by omega
      have hdivlt : n / 10 < n := Nat.div_lt_self hpos (by omega)
      rw [digitsVal_append_single, ih (n / 10) (by omega)]
      omega

lemma digitsVal_toDigits (n : Nat) : digitsVal (toDigits n) = n :=
  digitsVal_toDigitsAux (n + 1) n (by omega)

lemma digitsVal_zfill4 (ds : List Nat) : digitsVal (zfill4 ds) = digitsVal ds := by
  unfold zfill4
  generalize 4 - ds.length = k
  induction k with
  | zero => simp
  | succ k ih => simp [List.replicate_succ, digitsVal, ih]

/-- C6 counterexample: after the 4-digit pad overflows, the
lexicographically last id is not the numerically largest one, and the
generated suffix is not strictly greater than every existing suffix: with
suffixes `9999` and `10000` on file, the generator reads `9999` as the
last id and produces `10000`, which already exists. -/
theorem c6_counterexample :
    ¬ ∀ ids : List (List Nat), ∀ s ∈ ids, digitsVal s < digitsVal (nextIdSuffix ids) := by
  intro h
  exact absurd (h [[9, 9, 9, 9], [1, 0, 0, 0, 0]] [1, 0, 0, 0, 0] (by simp)) (by decide)

/-- C6 amended: when no records exist the generated suffix is `0001`
(value 1); and as long as every existing suffix is exactly four decimal
digits (the pre-overflow regime the padding scheme maintains), the
generated suffix is strictly greater than every existing suffix. -/
theorem c6_amended_id_monotone :
    nextIdSuffix [] = [0, 0, 0, 1] ∧
    ∀ ids, WF4 ids → ∀ s ∈ ids, digitsVal s < digitsVal (nextIdSuffix ids) := by
  constructor
  · rfl
  · intro ids hwf s hs
    cases ids with
    | nil => simp at hs
    | cons x xs =>
      have hx := hwf x (by simp)
      have hxs : ∀ y ∈ xs, y.length = 4 ∧ ∀ d ∈ y, d < 10 :=
        fun y hy => hwf y (by simp [hy])
      obtain ⟨_, hxle, hall⟩ := foldl_lexMax_spec xs x hx hxs
      have hsle : digitsVal s ≤ digitsVal (xs.foldl lexMax x) := by
        rcases List.mem_cons.mp hs with rfl | hs
        · exact hxle
        · exact hall s hs
      show digitsVal s < digitsVal (nextIdSuffix (x :: xs))
      unfold nextIdSuffix lastIdSuffix
      rw [digitsVal_zfill4, digitsVal_toDigits]
      omega

/-- C6 witness: the amended theorem applied to a concrete two-record
table. -/
theorem c6_witness :
    digitsVal [0, 0, 0, 2] < digitsVal (nextIdSuffix [[0, 0, 0, 2], [0, 0, 0, 1]]) :=
  c6_amended_id_monotone.2 [[0, 0, 0, 2], [0, 0, 0, 1]]
    (by unfold WF4; decide) [0, 0, 0, 2] (by decide)
